import Mathlib

/-!
Shallow embedding of the Deep-Research-Agent orchestration core
(src/state/schema.py, src/agents/subagent.py, src/agents/lead_researcher.py,
src/agents/citation_agent.py, src/graph/workflow.py), together with theorems
settling the specification claims about the planning / execution / synthesis
loop, the batch executor, source accumulation and the citation step.

LLM calls, web search and on-disk memory are external effects: they are
modelled as oracle parameters (the already-parsed structured response, or a
parse/execution failure), exactly at the boundary where the Python code
consumes their results.
-/

namespace DeepResearch

/-! ## Data model (src/state/schema.py) -/

/-- `SubagentTask` (schema.py): one delegated unit of research work. -/
structure SubagentTask where
  task_id : String
  objective : String
  search_strategy : String
  output_format : String
  tool_guidance : String
  boundaries : String
deriving DecidableEq, Repr

/-- A source dict as produced by the subagent JSON template
`{url, title, snippet, score}`; Python compares sources with dict
equality, so equality here is field-wise. -/
structure Source where
  url : String
  title : String
  snippet : String
  score : Option ℚ
deriving DecidableEq, Repr

/-- `SubagentResult` (schema.py): result returned by a subagent. -/
structure SubagentResult where
  task_id : String
  findings : String
  sources : List Source
  confidence : ℚ
  gaps : List String
deriving DecidableEq, Repr

/-- `ResearchPlan` (schema.py). -/
structure ResearchPlan where
  query_complexity : String
  estimated_subagents : Nat
  strategy : String
  subagent_tasks : List SubagentTask
deriving DecidableEq, Repr

/-! ## TaskBatchExecutor (src/agents/subagent.py) -/

/-- Outcome of parsing the final LLM message inside
`execute_subagent_task` (subagent.py lines 132-160): the JSON parse
either succeeds with the extracted fields (`.get` defaults already
applied), fails with `JSONDecodeError`/`ValueError`, or fails with some
other exception. -/
inductive ParseOutcome where
  | ok (findings : String) (sources : List Source) (confidence : ℚ) (gaps : List String)
  | jsonError
  | otherError (e : String)
deriving DecidableEq, Repr

/-- The final LLM reply consumed by `execute_subagent_task`: its raw
`content` string and how the JSON parse of that content goes. -/
structure LLMReply where
  content : String
  parse : ParseOutcome
deriving DecidableEq, Repr

/-- `execute_subagent_task` (subagent.py lines 98-160), from the point the
final message content is in hand: every branch returns a `SubagentResult`
carrying `task_id = task.task_id`. -/
def execute_subagent_task (task : SubagentTask) (reply : LLMReply) : SubagentResult :=
  match reply.parse with
  | .ok findings sources confidence gaps =>
      { task_id := task.task_id, findings := findings, sources := sources,
        confidence := confidence, gaps := gaps }
  | .jsonError =>
      { task_id := task.task_id, findings := reply.content, sources := [],
        confidence := 1/2, gaps := ["Response was not in expected JSON format"] }
  | .otherError e =>
      { task_id := task.task_id, findings := reply.content, sources := [],
        confidence := 3/10, gaps := ["Error parsing response: " ++ e] }

/-- How the `i`-th coroutine of `asyncio.gather(..., return_exceptions=True)`
ends: either an exception escaped `execute_subagent_task` (e.g. from
`get_llm` or `agent.invoke`), or the task completed and returned the
result of parsing its final reply. -/
inductive TaskRun where
  | raised (e : String)
  | completed (reply : LLMReply)
deriving DecidableEq, Repr

/-- The error `SubagentResult` built in `run_subagents_parallel`
(subagent.py lines 173-180) when gather hands back an exception for the
`i`-th task. -/
def failed_task_result (task : SubagentTask) (e : String) : SubagentResult :=
  { task_id := task.task_id, findings := "Error: " ++ e, sources := [],
    confidence := 0, gaps := ["Subagent execution failed"] }

/-- The `for i, result in enumerate(results)` loop of
`run_subagents_parallel` (subagent.py lines 170-184): `asyncio.gather`
preserves input order, so the `i`-th gather outcome belongs to `tasks[i]`. -/
def run_subagents_from (tasks : List SubagentTask) (env : Nat → TaskRun) (i : Nat) :
    List SubagentResult :=
  match tasks with
  | [] => []
  | task :: rest =>
      (match env i with
       | .raised e => failed_task_result task e
       | .completed reply => execute_subagent_task task reply)
      :: run_subagents_from rest env (i + 1)

/-- `run_subagents_parallel` (subagent.py lines 163-184): dispatch every
task, collect one result per task in input order, converting a raised
exception at position `i` into `failed_task_result`. -/
def run_subagents_parallel (tasks : List SubagentTask) (env : Nat → TaskRun) :
    List SubagentResult :=
  run_subagents_from tasks env 0

theorem execute_subagent_task_task_id (task : SubagentTask) (reply : LLMReply) :
    (execute_subagent_task task reply).task_id = task.task_id := by
  cases h : reply.parse <;> simp [execute_subagent_task, h]

theorem run_subagents_from_length (tasks : List SubagentTask) (env : Nat → TaskRun) (i : Nat) :
    (run_subagents_from tasks env i).length = tasks.length := by
  induction tasks generalizing i with
  | nil => rfl
  | cons t rest ih => simp [run_subagents_from, ih]

theorem run_subagents_from_get? (tasks : List SubagentTask) (env : Nat → TaskRun)
    (s i : Nat) :
    ((run_subagents_from tasks env s).get? i).map SubagentResult.task_id
      = (tasks.get? i).map SubagentTask.task_id := by
  induction tasks generalizing s i with
  | nil => rfl
  | cons t rest ih =>
    cases i with
    | zero =>
      cases h : env s with
      | raised e => simp [run_subagents_from, h, failed_task_result]
      | completed reply =>
        simp [run_subagents_from, h, execute_subagent_task_task_id]
    | succ j => simpa [run_subagents_from] using ih (s + 1) j

/-! ## Source accumulation (src/agents/lead_researcher.py lines 182-185)

```python
for src in result.sources:
    if src not in all_sources:
        all_sources.append(src)
```
Python's `in` on a list of dicts uses dict equality, i.e. full field-wise
equality, not the url alone. -/

/-- One result's source loop: append each source not already present. -/
def merge_sources (all_sources : List Source) (new : List Source) : List Source :=
  new.foldl (fun acc s => if s ∈ acc then acc else acc ++ [s]) all_sources

/-- The outer `for result in subagent_results` loop collecting sources. -/
def collect_sources (all_sources : List Source) (results : List SubagentResult) :
    List Source :=
  results.foldl (fun acc r => merge_sources acc r.sources) all_sources

theorem mem_merge_sources_of_mem_left (all_sources new : List Source)
    (s : Source) (h : s ∈ all_sources) : s ∈ merge_sources all_sources new := by
  induction new generalizing all_sources with
  | nil => exact h
  | cons t rest ih =>
    by_cases ht : t ∈ all_sources
    · simpa [merge_sources, ht] using ih all_sources h
    · simpa [merge_sources, ht] using
        ih (all_sources ++ [t]) (List.mem_append_left _ h)

theorem mem_merge_sources_of_mem_new (all_sources new : List Source)
    (s : Source) (h : s ∈ new) : s ∈ merge_sources all_sources new := by
  induction new generalizing all_sources with
  | nil => cases h
  | cons t rest ih =>
    rcases List.mem_cons.mp h with rfl | hrest
    · by_cases ht : s ∈ all_sources
      · simpa [merge_sources, ht] using
          mem_merge_sources_of_mem_left all_sources rest s ht
      · simpa [merge_sources, ht] using
          mem_merge_sources_of_mem_left (all_sources ++ [s]) rest s
            (List.mem_append_right _ (List.mem_singleton.mpr rfl))
    · by_cases ht : t ∈ all_sources
      · simpa [merge_sources, ht] using ih all_sources hrest
      · simpa [merge_sources, ht] using ih (all_sources ++ [t]) hrest

theorem merge_sources_of_subset (all_sources new : List Source)
    (h : ∀ s ∈ new, s ∈ all_sources) : merge_sources all_sources new = all_sources := by
  induction new with
  | nil => rfl
  | cons t rest ih =>
    have ht : t ∈ all_sources := h t (List.mem_cons_self _ _)
    simp only [merge_sources, List.foldl_cons, if_pos ht]
    exact ih (fun s hs => h s (List.mem_cons_of_mem _ hs))

/-! ## Citation step (src/agents/citation_agent.py lines 79-90)

```python
citations_used = data.get("citations_used", [])
if citations_used:
    cited_sources = [all_sources[i-1] for i in citations_used if 0 < i <= len(all_sources)]
else:
    cited_sources = all_sources
```
-/

/-- The cited-source selection of `citation_agent_node`: keep only
1-indexed indices in range, translating them to 0-based accesses; an
empty index list selects everything. -/
def cited_sources (citations_used : List Int) (all_sources : List Source) : List Source :=
  if citations_used.isEmpty then all_sources
  else citations_used.filterMap fun i =>
    if 0 < i ∧ i ≤ (all_sources.length : Int) then
      some (all_sources.getD (i - 1).toNat ⟨"", "", "", none⟩)
    else none

/-! ## Planner node (src/agents/lead_researcher.py lines 95-159) -/

/-- The parsed planning JSON after the `.get` defaults of lines 136-145
have been applied, with every `SubagentTask(**task)` construction having
succeeded (any failure there lands in the `except` branch, i.e. in the
`.error` case of the oracle). -/
structure PlanningData where
  query_complexity : String
  estimated_subagents : Nat
  strategy : String
  subagent_tasks : List SubagentTask
deriving DecidableEq, Repr

/-- The partial state-update dict returned by
`lead_researcher_planning_node`; `none` means the key is absent from the
returned dict, so the graph state keeps its previous value. -/
structure PlanningUpdate where
  research_plan : Option ResearchPlan
  subagent_tasks : Option (List SubagentTask)
  iteration_count : Option Nat
  message : String
deriving DecidableEq, Repr

/-- `lead_researcher_planning_node` (lead_researcher.py lines 95-159).
`resp` is the oracle for the whole fallible block: parsing the LLM
content, constructing the tasks and plan, and saving to memory
(`plan_file` is the locator `memory.save_plan` returns on success). On
any exception the node returns only an error message — in particular it
sets `iteration_count := 1` on every success, and returns no plan at all
on failure. -/
def lead_researcher_planning_node (user_query : String) (plan_file : String)
    (resp : Except String PlanningData) : PlanningUpdate :=
  if user_query = "" then
    { research_plan := none, subagent_tasks := none, iteration_count := none,
      message := "No query found." }
  else
    match resp with
    | .ok d =>
        { research_plan := some
            { query_complexity := d.query_complexity,
              estimated_subagents := d.estimated_subagents,
              strategy := d.strategy,
              subagent_tasks := d.subagent_tasks },
          subagent_tasks := some d.subagent_tasks,
          iteration_count := some 1,
          message := "Research plan created with " ++ toString d.subagent_tasks.length
            ++ " subagents. Plan saved to " ++ plan_file }
    | .error e =>
        { research_plan := none, subagent_tasks := none, iteration_count := none,
          message := "Error creating research plan: " ++ e }

/-! ## Synthesis node (src/agents/lead_researcher.py lines 162-269) -/

/-- A raw `next_tasks` entry: a JSON dict whose six expected keys may or
may not be present (`some` = key present with a string value). -/
structure RawTaskData where
  task_id : Option String
  objective : Option String
  search_strategy : Option String
  output_format : Option String
  tool_guidance : Option String
  boundaries : Option String
deriving DecidableEq, Repr

/-- The validation of lines 221-226: accept a candidate exactly when all
six keys are present (then `SubagentTask(**task_data)` succeeds), else
drop it. No check on the *contents* of the fields is performed. -/
def validate_task (t : RawTaskData) : Option SubagentTask :=
  match t.task_id, t.objective, t.search_strategy, t.output_format,
      t.tool_guidance, t.boundaries with
  | some a, some b, some c, some d, some e, some f =>
      some { task_id := a, objective := b, search_strategy := c,
             output_format := d, tool_guidance := e, boundaries := f }
  | _, _, _, _, _, _ => none

/-- The parsed synthesis JSON after the `.get` defaults of lines 210-220
(`synthesis` defaults to `""`, `needs_more_research` to `False`,
`next_tasks` to `[]`). -/
structure SynthesisData where
  synthesis : String
  needs_more_research : Bool
  next_tasks : List RawTaskData
deriving DecidableEq, Repr

/-- The partial state-update dict returned by
`lead_researcher_synthesis_node`; `none` = key absent from the returned
dict. All three return paths set `research_complete` and `all_sources`. -/
structure SynthesisUpdate where
  subagent_tasks : Option (List SubagentTask)
  subagent_results : Option (List SubagentResult)
  iteration_count : Option Nat
  research_complete : Bool
  all_sources : List Source
  memory_context : Option String
deriving DecidableEq, Repr

/-- `_create_synthesis_from_results` (lead_researcher.py lines 261-269). -/
def create_synthesis_from_results (subagent_results : List SubagentResult) : String :=
  if subagent_results.isEmpty then "No research findings available."
  else subagent_results.foldl
    (fun acc r => acc ++ "### " ++ r.task_id ++ "\n\n" ++ r.findings ++ "\n\n")
    "## Research Findings\n\n"

/-- `lead_researcher_synthesis_node` (lead_researcher.py lines 162-258).
Source collection (lines 182-185) happens before the fallible block, so
the merged `all_sources` is returned on every path. `resp` is the oracle
for the LLM call plus JSON parse (`.error` = the `except` branch). -/
def lead_researcher_synthesis_node (subagent_results : List SubagentResult)
    (iteration max_iterations : Nat) (all_sources : List Source)
    (resp : Except String SynthesisData) : SynthesisUpdate :=
  let sources' := collect_sources all_sources subagent_results
  match resp with
  | .ok data =>
      let needs_more := data.needs_more_research && decide (iteration < max_iterations)
      let new_tasks := data.next_tasks.filterMap validate_task
      if needs_more && !new_tasks.isEmpty then
        { subagent_tasks := some new_tasks,
          subagent_results := some [],
          iteration_count := some (iteration + 1),
          research_complete := false,
          all_sources := sources',
          memory_context := none }
      else
        { subagent_tasks := none,
          subagent_results := none,
          iteration_count := none,
          research_complete := true,
          all_sources := sources',
          memory_context := some (if data.synthesis = "" then
            create_synthesis_from_results subagent_results else data.synthesis) }
  | .error _ =>
      { subagent_tasks := none,
        subagent_results := none,
        iteration_count := none,
        research_complete := true,
        all_sources := sources',
        memory_context := some (create_synthesis_from_results subagent_results) }

/-! ## Workflow graph (src/graph/workflow.py) -/

/-- The nodes of the compiled LangGraph workflow, plus the END sentinel. -/
inductive Node where
  | lead_planning
  | subagent_executor
  | lead_synthesis
  | citation_agent
  | terminal
deriving DecidableEq, Repr

/-- `should_continue_research` (workflow.py lines 20-31). -/
def should_continue_research (research_complete : Bool)
    (iteration_count max_iterations : Nat) : String :=
  if research_complete || decide (iteration_count ≥ max_iterations) then "citation"
  else "continue"

/-- `has_tasks` (workflow.py lines 34-42). -/
def has_tasks (subagent_tasks : List SubagentTask) : String :=
  if !subagent_tasks.isEmpty then "execute" else "synthesize"

/-- The conditional-edge dict out of `lead_planning`
(workflow.py lines 69-76). -/
def planning_router_edges (route : String) : Option Node :=
  if route = "execute" then some Node.subagent_executor
  else if route = "synthesize" then some Node.lead_synthesis
  else none

/-- The conditional-edge dict out of `lead_synthesis`
(workflow.py lines 82-89): `"continue"` maps to `lead_planning` — the
loop goes back through the Planner, not to the executor. -/
def synthesis_router_edges (route : String) : Option Node :=
  if route = "continue" then some Node.lead_planning
  else if route = "citation" then some Node.citation_agent
  else none

/-- The full graph state of `AgentState` that the claims touch (the
append-only `messages` log is omitted; nodes only ever append to it). -/
structure SessionState where
  node : Node
  research_plan : Option ResearchPlan
  subagent_tasks : List SubagentTask
  subagent_results : List SubagentResult
  memory_context : String
  iteration_count : Nat
  max_iterations : Nat
  research_complete : Bool
  all_sources : List Source
deriving DecidableEq, Repr

/-- `get_initial_state` (workflow.py lines 97-116) positioned at the
graph entry edge `START -> lead_planning`. -/
def get_initial_state : SessionState :=
  { node := Node.lead_planning,
    research_plan := none,
    subagent_tasks := [],
    subagent_results := [],
    memory_context := "",
    iteration_count := 0,
    max_iterations := 3,
    research_complete := false,
    all_sources := [] }

/-- The external world for one session run: for each graph superstep `k`,
the planning LLM outcome, the synthesis LLM outcome, and the per-task
execution outcomes. -/
structure Env where
  user_query : String
  plan_file : String
  planning : Nat → Except String PlanningData
  synthesis : Nat → Except String SynthesisData
  execution : Nat → Nat → TaskRun

/-- One superstep of the compiled graph: run the current node on the
state, merge its partial update (LangGraph overwrites every returned key,
keeps the rest), then follow the (conditional) edge out of the node. -/
def step_once (env : Env) (k : Nat) (s : SessionState) : SessionState :=
  match s.node with
  | Node.lead_planning =>
      let u := lead_researcher_planning_node env.user_query env.plan_file (env.planning k)
      let s' := { s with
        research_plan := u.research_plan.or s.research_plan,
        subagent_tasks := u.subagent_tasks.getD s.subagent_tasks,
        iteration_count := u.iteration_count.getD s.iteration_count }
      { s' with node :=
          (planning_router_edges (has_tasks s'.subagent_tasks)).getD Node.terminal }
  | Node.subagent_executor =>
      let s' := if s.subagent_tasks.isEmpty then s
        else { s with
          subagent_results := run_subagents_parallel s.subagent_tasks (env.execution k) }
      { s' with node := Node.lead_synthesis }
  | Node.lead_synthesis =>
      let u := lead_researcher_synthesis_node s.subagent_results s.iteration_count
        s.max_iterations s.all_sources (env.synthesis k)
      let s' := { s with
        subagent_tasks := u.subagent_tasks.getD s.subagent_tasks,
        subagent_results := u.subagent_results.getD s.subagent_results,
        iteration_count := u.iteration_count.getD s.iteration_count,
        research_complete := u.research_complete,
        all_sources := u.all_sources,
        memory_context := u.memory_context.getD s.memory_context }
      { s' with node :=
          (synthesis_router_edges (should_continue_research s'.research_complete
            s'.iteration_count s'.max_iterations)).getD Node.terminal }
  | Node.citation_agent => { s with node := Node.terminal }
  | Node.terminal => s

/-- Run `n` supersteps of the graph from the initial state. -/
def run (env : Env) : Nat → SessionState
  | 0 => get_initial_state
  | n + 1 => step_once env n (run env n)

/-! ## Concrete scenario material for the claim theorems -/

/-- A well-formed first-round task, as the Planner would produce it. -/
def demo_task : SubagentTask :=
  { task_id := "t0", objective := "find background", search_strategy := "broad",
    output_format := "markdown", tool_guidance := "search_web", boundaries := "stay on topic" }

/-- A field-complete raw candidate for a next-round task, as the
synthesis LLM would propose it. -/
def demo_raw_task : RawTaskData :=
  { task_id := some "t1", objective := some "follow up", search_strategy := some "specific",
    output_format := some "markdown", tool_guidance := some "search_web",
    boundaries := some "narrow scope" }

/-- An environment in which every upstream call succeeds and the
synthesis LLM asks for more research with one valid next task on every
round: planning always parses, execution always completes, synthesis
always says `needs_more_research = true`. -/
def greedy_env : Env :=
  { user_query := "q",
    plan_file := "plans/plan.md",
    planning := fun _ => .ok
      { query_complexity := "moderate", estimated_subagents := 1,
        strategy := "one worker", subagent_tasks := [demo_task] },
    synthesis := fun _ => .ok
      { synthesis := "partial summary", needs_more_research := true,
        next_tasks := [demo_raw_task] },
    execution := fun _ _ => .completed
      { content := "raw reply", parse := .ok "some findings" [] 1 [] } }

/-- `greedy_env` answers every superstep identically, so the superstep
index is irrelevant to the transition. -/
theorem greedy_step_const (k l : Nat) (s : SessionState) :
    step_once greedy_env k s = step_once greedy_env l s := by
  cases s with
  | mk node plan tasks results mem it mx rc srcs => cases node <;> rfl

theorem greedy_run_add_three (n : Nat) :
    run greedy_env (n + 3)
      = step_once greedy_env 0 (step_once greedy_env 0
          (step_once greedy_env 0 (run greedy_env n))) := by
  show step_once greedy_env (n + 2) (step_once greedy_env (n + 1)
      (step_once greedy_env n (run greedy_env n))) = _
  rw [greedy_step_const (n + 2) 0, greedy_step_const (n + 1) 0, greedy_step_const n 0]

theorem greedy_run_five : run greedy_env 5 = run greedy_env 2 := by decide

theorem greedy_periodic (k : Nat) : run greedy_env (2 + 3 * k) = run greedy_env 2 := by
  induction k with
  | zero => rfl
  | succ k ih =>
    have h : 2 + 3 * (k + 1) = (2 + 3 * k) + 3 := by ring
    rw [h, greedy_run_add_three, ih, ← greedy_run_add_three 2]
    exact greedy_run_five

/-! ## Claim theorems -/

/-- C1: the claim says the round counter strictly increases across
successive synthesis passes and the loop terminates within
`max_iterations` rounds. The code violates this: the loop-back goes
through `lead_planning`, which resets `iteration_count` to 1 on every
successful pass (lead_researcher.py line 155), so under an upstream that
always requests more research the state at the synthesis node repeats
exactly every three supersteps with `iteration_count = 1` forever: the
counter does not increase across synthesis passes and the session never
reaches the citation node, despite `max_iterations = 3`. -/
theorem claim_C1_round_reset_defeats_budget :
    (run greedy_env 0).max_iterations = 3
  ∧ (run greedy_env 2).node = Node.lead_synthesis
  ∧ (run greedy_env 2).iteration_count = 1
  ∧ (run greedy_env 5).node = Node.lead_synthesis
  ∧ (run greedy_env 5).iteration_count = 1
  ∧ ∀ k, (run greedy_env (2 + 3 * k)).research_complete = false
       ∧ (run greedy_env (2 + 3 * k)).node = Node.lead_synthesis
       ∧ (run greedy_env (2 + 3 * k)).iteration_count = 1 := by
  refine ⟨rfl, rfl, rfl, rfl, rfl, fun k => ?_⟩
  rw [greedy_periodic k]
  exact ⟨rfl, rfl, rfl⟩

/-- C2 (counterexample): the claim says the loop-back transition from the
synthesis state goes directly to the execution state and never back to
planning. In the code the conditional-edge dict out of `lead_synthesis`
maps the `"continue"` route to `lead_planning` (workflow.py line 86), and
a continuing synthesis outcome does take the `"continue"` route. -/
theorem claim_C2_counterexample :
    synthesis_router_edges "continue" = some Node.lead_planning
  ∧ should_continue_research false 2 3 = "continue"
  ∧ Node.lead_planning ≠ Node.subagent_executor := by
  exact ⟨rfl, rfl, by decide⟩

/-- C2 (amended): when synthesis decides to continue within the budget,
the controller transitions from the synthesis node back to the planning
node — not to the executor — and a successful planning pass then
overwrites the synthesis-proposed subtasks with the fresh plan, i.e. the
Planner is consulted on every continuing round, not only the first. -/
theorem claim_C2_loopback_to_planning (d : SynthesisData)
    (results : List SubagentResult) (it mx : Nat) (srcs : List Source)
    (hmore : d.needs_more_research = true)
    (hvalid : (d.next_tasks.filterMap validate_task).isEmpty = false)
    (hbudget : it + 1 < mx) :
    synthesis_router_edges (should_continue_research
        (lead_researcher_synthesis_node results it mx srcs (.ok d)).research_complete
        ((lead_researcher_synthesis_node results it mx srcs (.ok d)).iteration_count.getD it)
        mx) = some Node.lead_planning
  ∧ Node.lead_planning ≠ Node.subagent_executor
  ∧ (∀ q pf pd, q ≠ "" →
      (lead_researcher_planning_node q pf (.ok pd)).subagent_tasks
        = some pd.subagent_tasks) := by
  have hlt : it < mx := Nat.lt_of_succ_lt hbudget
  refine ⟨?_, by decide, ?_⟩
  · simp only [lead_researcher_synthesis_node, hmore, hvalid, decide_eq_true hlt,
      Bool.true_and, Bool.not_false, Bool.and_true, if_pos rfl]
    simp [should_continue_research, synthesis_router_edges, Nat.not_le.mpr hbudget]
  · intro q pf pd hq
    simp [lead_researcher_planning_node, hq]

/-- C2 witness for `claim_C2_loopback_to_planning` at a concrete
continuing synthesis outcome. -/
theorem claim_C2_loopback_witness :
    synthesis_router_edges (should_continue_research
        (lead_researcher_synthesis_node [] 0 3 []
          (.ok { synthesis := "s", needs_more_research := true,
                 next_tasks := [demo_raw_task] })).research_complete
        ((lead_researcher_synthesis_node [] 0 3 []
          (.ok { synthesis := "s", needs_more_research := true,
                 next_tasks := [demo_raw_task] })).iteration_count.getD 0)
        3) = some Node.lead_planning
  ∧ Node.lead_planning ≠ Node.subagent_executor
  ∧ (∀ q pf pd, q ≠ "" →
      (lead_researcher_planning_node q pf (.ok pd)).subagent_tasks
        = some pd.subagent_tasks) :=
  claim_C2_loopback_to_planning
    { synthesis := "s", needs_more_research := true, next_tasks := [demo_raw_task] }
    [] 0 3 [] rfl (by decide) (by decide)

/-- C3: the batch executor returns exactly one finding per input subtask,
the i-th output carries the i-th input task id (also on failure), and the
empty batch yields the empty output. -/
theorem claim_C3_batch_pairing (tasks : List SubagentTask) (env : Nat → TaskRun) :
    (run_subagents_parallel tasks env).length = tasks.length
  ∧ (∀ i : Nat, ((run_subagents_parallel tasks env).get? i).map SubagentResult.task_id
      = (tasks.get? i).map SubagentTask.task_id)
  ∧ run_subagents_parallel [] env = [] :=
  ⟨run_subagents_from_length tasks env 0,
   fun i => run_subagents_from_get? tasks env 0 i,
   rfl⟩

theorem run_subagents_from_get?_agree (tasks : List SubagentTask)
    (env env' : Nat → TaskRun) (s i : Nat) (h : env (s + i) = env' (s + i)) :
    (run_subagents_from tasks env s).get? i = (run_subagents_from tasks env' s).get? i := by
  induction tasks generalizing s i with
  | nil => rfl
  | cons t rest ih =>
    cases i with
    | zero =>
      have h0 : env s = env' s := by simpa using h
      simp [run_subagents_from, h0]
    | succ j =>
      have h1 : env ((s + 1) + j) = env' ((s + 1) + j) := by
        have heq : (s + 1) + j = s + (j + 1) := by omega
        rw [heq]; exact h
      simpa [run_subagents_from] using ih (s + 1) j h1

theorem run_subagents_from_get?_raised (tasks : List SubagentTask)
    (env : Nat → TaskRun) (s i : Nat) (e : String) (hi : i < tasks.length)
    (h : env (s + i) = .raised e) :
    (run_subagents_from tasks env s).get? i
      = some (failed_task_result (tasks.get ⟨i, hi⟩) e) := by
  induction tasks generalizing s i with
  | nil => exact absurd hi (Nat.not_lt_zero i)
  | cons t rest ih =>
    cases i with
    | zero =>
      have h0 : env s = .raised e := by simpa using h
      simp [run_subagents_from, h0]
    | succ j =>
      have h1 : env ((s + 1) + j) = .raised e := by
        have heq : (s + 1) + j = s + (j + 1) := by omega
        rw [heq]; exact h
      simpa [run_subagents_from] using ih (s + 1) j (Nat.lt_of_succ_lt_succ hi) h1

/-- A four-task batch for the failure-isolation scenario. -/
def c4_tasks : List SubagentTask :=
  [ { task_id := "a", objective := "first", search_strategy := "broad",
      output_format := "md", tool_guidance := "search_web", boundaries := "b1" },
    { task_id := "b", objective := "second", search_strategy := "broad",
      output_format := "md", tool_guidance := "search_web", boundaries := "b2" },
    { task_id := "c", objective := "third", search_strategy := "specific",
      output_format := "md", tool_guidance := "search_web", boundaries := "b3" },
    { task_id := "d", objective := "fourth", search_strategy := "specific",
      output_format := "md", tool_guidance := "search_web", boundaries := "b4" } ]

/-- Execution outcomes where only the second task (index 1) raises. -/
def c4_env : Nat → TaskRun := fun i =>
  if i = 1 then .raised "timeout while invoking agent"
  else .completed { content := "body", parse := .ok "fine" [] 1 [] }

/-- Support fact: every gap string of the form
"execution failed: <cause>" begins with the characters of
"execution failed: ", whatever the cause is. -/
theorem execution_failed_gap_shape (cause : String) :
    List.isPrefixOf "execution failed: ".data ("execution failed: " ++ cause).data
      = true := by
  have h : ("execution failed: " ++ cause).data
      = "execution failed: ".data ++ cause.data := String.data_append _ _
  rw [h]
  exact List.isPrefixOf_iff_prefix.mpr (List.prefix_append _ _)

/-- C4 (counterexample): the claim says a failed task yields a finding
with `gaps = ["execution failed: <cause>"]`. In the code the gap entry is
the fixed string "Subagent execution failed" (subagent.py line 179),
which does not begin with "execution failed: ", so it is not of that form
for any cause; the cause text goes into `findings` instead. -/
theorem claim_C4_counterexample :
    ((run_subagents_parallel c4_tasks c4_env).get? 1).map SubagentResult.gaps
      = some ["Subagent execution failed"]
  ∧ List.isPrefixOf "execution failed: ".data "Subagent execution failed".data = false := by
  exact ⟨rfl, by decide⟩

/-- C4 (amended): a raised exception for task `i` yields, at position
`i`, a finding with that task's id, `confidence = 0`, empty sources,
`gaps = ["Subagent execution failed"]` and the cause recorded in
`findings` as "Error: <cause>"; and any task whose own execution outcome
is unchanged produces an unchanged finding, whatever happens to the
other tasks of the batch. -/
theorem claim_C4_failure_isolation (tasks : List SubagentTask)
    (env env' : Nat → TaskRun) (i : Nat) (e : String)
    (hi : i < tasks.length) (hrun : env i = .raised e) :
    (run_subagents_parallel tasks env).get? i
      = some { task_id := (tasks.get ⟨i, hi⟩).task_id,
               findings := "Error: " ++ e, sources := [], confidence := 0,
               gaps := ["Subagent execution failed"] }
  ∧ (∀ j, env' j = env j →
      (run_subagents_parallel tasks env').get? j
        = (run_subagents_parallel tasks env).get? j) := by
  constructor
  · have h := run_subagents_from_get?_raised tasks env 0 i e hi (by simpa using hrun)
    simpa [run_subagents_parallel, failed_task_result] using h
  · intro j hj
    exact run_subagents_from_get?_agree tasks env' env 0 j (by simpa using hj)

/-- C4 witness for `claim_C4_failure_isolation`: in the four-task batch
with task 1 raising, the output has the failed finding at position 1 and
siblings are determined by their own outcomes. -/
theorem claim_C4_isolation_witness :
    (run_subagents_parallel c4_tasks c4_env).get? 1
      = some { task_id := "b", findings := "Error: timeout while invoking agent",
               sources := [], confidence := 0, gaps := ["Subagent execution failed"] }
  ∧ (∀ j, c4_env j = c4_env j →
      (run_subagents_parallel c4_tasks c4_env).get? j
        = (run_subagents_parallel c4_tasks c4_env).get? j) :=
  claim_C4_failure_isolation c4_tasks c4_env c4_env 1 "timeout while invoking agent"
    (by decide) (by decide)

/-- C5: if the upstream synthesis decision says continue but zero
proposed next-subtasks survive validation, the node marks the session
research-complete, returns no task batch, and the router sends the
session to the citation node rather than looping. -/
theorem claim_C5_no_valid_tasks_terminates (d : SynthesisData)
    (results : List SubagentResult) (it mx : Nat) (srcs : List Source)
    (_hmore : d.needs_more_research = true)
    (hnone : d.next_tasks.filterMap validate_task = []) :
    (lead_researcher_synthesis_node results it mx srcs (.ok d)).research_complete = true
  ∧ (lead_researcher_synthesis_node results it mx srcs (.ok d)).subagent_tasks = none
  ∧ should_continue_research
      (lead_researcher_synthesis_node results it mx srcs (.ok d)).research_complete
      ((lead_researcher_synthesis_node results it mx srcs (.ok d)).iteration_count.getD it)
      mx = "citation" := by
  refine ⟨?_, ?_, ?_⟩ <;>
    simp [lead_researcher_synthesis_node, hnone, should_continue_research]

/-- An upstream-proposed candidate that fails validation: the `task_id`
key is missing. -/
def c5_invalid_raw : RawTaskData :=
  { task_id := none, objective := some "x", search_strategy := some "broad",
    output_format := some "md", tool_guidance := some "t", boundaries := some "b" }

/-- C5 witness for `claim_C5_no_valid_tasks_terminates`: a continue
decision whose only proposed candidate is invalid forces completion. -/
theorem claim_C5_witness :
    (lead_researcher_synthesis_node [] 1 3 []
        (.ok { synthesis := "syn", needs_more_research := true,
               next_tasks := [c5_invalid_raw] })).research_complete = true
  ∧ (lead_researcher_synthesis_node [] 1 3 []
        (.ok { synthesis := "syn", needs_more_research := true,
               next_tasks := [c5_invalid_raw] })).subagent_tasks = none
  ∧ should_continue_research
      (lead_researcher_synthesis_node [] 1 3 []
        (.ok { synthesis := "syn", needs_more_research := true,
               next_tasks := [c5_invalid_raw] })).research_complete
      ((lead_researcher_synthesis_node [] 1 3 []
        (.ok { synthesis := "syn", needs_more_research := true,
               next_tasks := [c5_invalid_raw] })).iteration_count.getD 1)
      3 = "citation" :=
  claim_C5_no_valid_tasks_terminates
    { synthesis := "syn", needs_more_research := true, next_tasks := [c5_invalid_raw] }
    [] 1 3 [] rfl (by decide)

theorem mem_of_mem_merge_sources (all_sources new : List Source) (s : Source)
    (h : s ∈ merge_sources all_sources new) : s ∈ all_sources ∨ s ∈ new := by
  induction new generalizing all_sources with
  | nil => exact Or.inl h
  | cons t rest ih =>
    by_cases ht : t ∈ all_sources
    · rcases ih all_sources (by simpa [merge_sources, ht] using h) with h1 | h2
      · exact Or.inl h1
      · exact Or.inr (List.mem_cons_of_mem _ h2)
    · rcases ih (all_sources ++ [t]) (by simpa [merge_sources, ht] using h) with h1 | h2
      · rcases List.mem_append.mp h1 with ha | hb
        · exact Or.inl ha
        · exact Or.inr (List.mem_cons.mpr (Or.inl (List.mem_singleton.mp hb)))
      · exact Or.inr (List.mem_cons_of_mem _ h2)

/-- Two distinct source dicts sharing one url. -/
def c6_first : Source :=
  { url := "https://example.org/a", title := "first title", snippet := "s1", score := none }

/-- Same url as `c6_first`, different title and snippet. -/
def c6_second : Source :=
  { url := "https://example.org/a", title := "second title", snippet := "s2", score := none }

/-- C6 (counterexample): the claim says accumulation deduplicates by url
with first-seen winning for title/snippet. The code tests `src not in
all_sources`, i.e. whole-dict equality, so two sources with the same url
but different titles are both kept: merging them does not collapse to the
first-seen entry. -/
theorem claim_C6_counterexample :
    merge_sources [] [c6_first, c6_second] = [c6_first, c6_second]
  ∧ c6_first.url = c6_second.url
  ∧ c6_first ≠ c6_second
  ∧ merge_sources [] [c6_first, c6_second] ≠ [c6_first] := by
  refine ⟨by decide, rfl, by decide, by decide⟩

/-- C6 (amended): accumulation deduplicates by whole-source equality
(url, title, snippet and score all equal), keeping first occurrences; the
merge is idempotent — merging the same source list twice yields the same
list as merging it once — and the merged list contains exactly the old
sources and the new ones. -/
theorem claim_C6_merge_idempotent (all_sources new : List Source) :
    merge_sources (merge_sources all_sources new) new = merge_sources all_sources new
  ∧ (∀ s, s ∈ merge_sources all_sources new ↔ s ∈ all_sources ∨ s ∈ new) := by
  constructor
  · exact merge_sources_of_subset (merge_sources all_sources new) new
      (fun s hs => mem_merge_sources_of_mem_new all_sources new s hs)
  · intro s
    constructor
    · exact mem_of_mem_merge_sources all_sources new s
    · intro h
      rcases h with h | h
      · exact mem_merge_sources_of_mem_left all_sources new s h
      · exact mem_merge_sources_of_mem_new all_sources new s h

/-- C6 witness for `claim_C6_merge_idempotent` at a concrete source
list. -/
theorem claim_C6_witness :
    merge_sources (merge_sources [] [c6_first]) [c6_first] = merge_sources [] [c6_first]
  ∧ (c6_first ∈ merge_sources [] [c6_first]
      ↔ c6_first ∈ ([] : List Source) ∨ c6_first ∈ [c6_first]) :=
  ⟨(claim_C6_merge_idempotent [] [c6_first]).1,
   (claim_C6_merge_idempotent [] [c6_first]).2 c6_first⟩

/-- C7 (counterexample): the claim says that on a malformed planning
response the Planner returns a degraded plan with zero subtasks and
`strategy = "planning failed: <reason>"`. In the code the `except` branch
(lead_researcher.py lines 158-159) returns no plan at all — only an error
message — so no plan with any strategy is produced. -/
theorem claim_C7_counterexample :
    (lead_researcher_planning_node "What is X" "plans/plan.md"
        (.error "Expecting value")).research_plan = none
  ∧ (lead_researcher_planning_node "What is X" "plans/plan.md"
        (.error "Expecting value")).subagent_tasks = none
  ∧ (lead_researcher_planning_node "What is X" "plans/plan.md"
        (.error "Expecting value")).message
      = "Error creating research plan: Expecting value" := by
  refine ⟨rfl, rfl, rfl⟩

/-- C7 (amended): on a malformed or unparsable planning response the node
neither retries nor crashes; it returns no plan, no task list and no
iteration count, only the message "Error creating research plan:
<reason>". The state keeps its previous task list — empty on a first
round — and with an empty task list the `has_tasks` router sends the
controller to synthesis over the empty batch. -/
theorem claim_C7_planning_failure_degrades (q pf e : String) (hq : q ≠ "") :
    lead_researcher_planning_node q pf (.error e)
      = { research_plan := none, subagent_tasks := none, iteration_count := none,
          message := "Error creating research plan: " ++ e }
  ∧ has_tasks [] = "synthesize"
  ∧ planning_router_edges (has_tasks []) = some Node.lead_synthesis := by
  refine ⟨?_, rfl, rfl⟩
  simp [lead_researcher_planning_node, hq]

/-- C7 witness for `claim_C7_planning_failure_degrades` at a concrete
query and parse error. -/
theorem claim_C7_witness :
    lead_researcher_planning_node "What is X" "plans/plan.md" (.error "bad JSON")
      = { research_plan := none, subagent_tasks := none, iteration_count := none,
          message := "Error creating research plan: " ++ "bad JSON" }
  ∧ has_tasks [] = "synthesize"
  ∧ planning_router_edges (has_tasks []) = some Node.lead_synthesis :=
  claim_C7_planning_failure_degrades "What is X" "plans/plan.md" "bad JSON" (by decide)

theorem synthesis_foldl_length_le (l : List SubagentResult) (init : String) :
    init.length ≤ (l.foldl
      (fun acc r => acc ++ "### " ++ r.task_id ++ "\n\n" ++ r.findings ++ "\n\n")
      init).length := by
  induction l generalizing init with
  | nil => exact Nat.le_refl _
  | cons r rest ih =>
    refine Nat.le_trans ?_
      (ih (init ++ "### " ++ r.task_id ++ "\n\n" ++ r.findings ++ "\n\n"))
    simp only [String.length_append]
    omega

theorem create_synthesis_from_results_ne_empty (results : List SubagentResult) :
    create_synthesis_from_results results ≠ "" := by
  cases results with
  | nil => decide
  | cons r rest =>
    intro hcontra
    have hfold : ((r :: rest).foldl
        (fun acc r => acc ++ "### " ++ r.task_id ++ "\n\n" ++ r.findings ++ "\n\n")
        "## Research Findings\n\n") = "" := by
      simpa [create_synthesis_from_results] using hcontra
    have hle := synthesis_foldl_length_le (r :: rest) "## Research Findings\n\n"
    rw [hfold] at hle
    exact absurd hle (by decide)

/-- C8: on an unparsable synthesis response the node falls back to the
locally computed synthesis (the finding narratives concatenated and
labeled by task id), marks research complete (continue = false, the
router goes to citation), the fallback for an empty batch is the fixed
text "No research findings available.", and the accumulated synthesis is
never the empty string. -/
theorem claim_C8_synthesis_fallback (results : List SubagentResult)
    (it mx : Nat) (srcs : List Source) (e : String) :
    (lead_researcher_synthesis_node results it mx srcs (.error e)).research_complete = true
  ∧ (lead_researcher_synthesis_node results it mx srcs (.error e)).memory_context
      = some (create_synthesis_from_results results)
  ∧ (results = [] →
      (lead_researcher_synthesis_node results it mx srcs (.error e)).memory_context
        = some "No research findings available.")
  ∧ create_synthesis_from_results results ≠ ""
  ∧ should_continue_research
      (lead_researcher_synthesis_node results it mx srcs (.error e)).research_complete
      it mx = "citation" := by
  refine ⟨rfl, rfl, ?_, create_synthesis_from_results_ne_empty results, ?_⟩
  · intro h
    subst h
    rfl
  · simp [lead_researcher_synthesis_node, should_continue_research]

/-- C8 witness for `claim_C8_synthesis_fallback` on the empty batch with
a concrete parse error. -/
theorem claim_C8_witness :
    (lead_researcher_synthesis_node [] 1 3 [] (.error "bad JSON")).research_complete = true
  ∧ (lead_researcher_synthesis_node [] 1 3 [] (.error "bad JSON")).memory_context
      = some (create_synthesis_from_results [])
  ∧ (([] : List SubagentResult) = [] →
      (lead_researcher_synthesis_node [] 1 3 [] (.error "bad JSON")).memory_context
        = some "No research findings available.")
  ∧ create_synthesis_from_results [] ≠ ""
  ∧ should_continue_research
      (lead_researcher_synthesis_node [] 1 3 [] (.error "bad JSON")).research_complete
      1 3 = "citation" :=
  claim_C8_synthesis_fallback [] 1 3 [] "bad JSON"

theorem validate_task_some_iff (raw : RawTaskData) (t : SubagentTask) :
    validate_task raw = some t ↔
      raw.task_id = some t.task_id ∧ raw.objective = some t.objective
    ∧ raw.search_strategy = some t.search_strategy
    ∧ raw.output_format = some t.output_format
    ∧ raw.tool_guidance = some t.tool_guidance
    ∧ raw.boundaries = some t.boundaries := by
  cases raw with
  | mk a b c d e f =>
    cases t with
    | mk ta tb tc td te tf =>
      cases a <;> cases b <;> cases c <;> cases d <;> cases e <;> cases f <;>
        simp [validate_task, SubagentTask.mk.injEq, and_assoc]

/-- A raw candidate whose six keys are all present but whose `task_id`
and `objective` are empty strings. -/
def c9_empty_raw : RawTaskData :=
  { task_id := some "", objective := some "", search_strategy := some "broad",
    output_format := some "md", tool_guidance := some "search_web",
    boundaries := some "none" }

/-- The task the validation accepts from `c9_empty_raw`. -/
def c9_empty_task : SubagentTask :=
  { task_id := "", objective := "", search_strategy := "broad",
    output_format := "md", tool_guidance := "search_web", boundaries := "none" }

/-- C9 (counterexample): the claim says candidates with empty objective
or empty id are dropped, so every accepted subtask has them non-empty.
The validation of lead_researcher.py lines 221-226 only checks key
presence: a candidate whose `task_id` and `objective` are the empty
string is accepted into the next-round batch. -/
theorem claim_C9_counterexample :
    (lead_researcher_synthesis_node [] 1 3 []
        (.ok { synthesis := "syn", needs_more_research := true,
               next_tasks := [c9_empty_raw] })).subagent_tasks
      = some [c9_empty_task]
  ∧ c9_empty_task.objective = ""
  ∧ c9_empty_task.task_id = "" := by
  refine ⟨rfl, rfl, rfl⟩

/-- C9 (amended): the accepted next batch is exactly the proposed
candidates surviving validation, and validation checks exactly that all
six fields (`task_id` and the five directives) are present: every
accepted subtask arises from a proposed candidate carrying all six
fields, with the field contents — empty or not — taken over verbatim;
candidates failing the presence check are dropped silently. -/
theorem claim_C9_presence_validation (d : SynthesisData)
    (results : List SubagentResult) (it mx : Nat) (srcs : List Source)
    (l : List SubagentTask)
    (hacc : (lead_researcher_synthesis_node results it mx srcs (.ok d)).subagent_tasks
      = some l) :
    l = d.next_tasks.filterMap validate_task
  ∧ ∀ t ∈ l, ∃ raw ∈ d.next_tasks,
      raw.task_id = some t.task_id ∧ raw.objective = some t.objective
    ∧ raw.search_strategy = some t.search_strategy
    ∧ raw.output_format = some t.output_format
    ∧ raw.tool_guidance = some t.tool_guidance
    ∧ raw.boundaries = some t.boundaries := by
  have hl : l = d.next_tasks.filterMap validate_task := by
    by_cases hc : ((d.needs_more_research && decide (it < mx))
        && !(d.next_tasks.filterMap validate_task).isEmpty) = true
    · simp only [lead_researcher_synthesis_node, hc, if_true] at hacc
      exact (Option.some.inj hacc).symm
    · simp only [lead_researcher_synthesis_node, hc, if_false] at hacc
      cases hacc
  refine ⟨hl, ?_⟩
  intro t ht
  rw [hl] at ht
  rcases List.mem_filterMap.mp ht with ⟨raw, hraw, hval⟩
  exact ⟨raw, hraw, (validate_task_some_iff raw t).mp hval⟩

/-- C9 witness for `claim_C9_presence_validation`: a batch where one
candidate is field-complete and one is missing its `task_id`; the
accepted batch keeps exactly the complete one. -/
theorem claim_C9_witness :
    [c9_empty_task] = ([c9_empty_raw, c5_invalid_raw].filterMap validate_task)
  ∧ ∀ t ∈ [c9_empty_task], ∃ raw ∈ [c9_empty_raw, c5_invalid_raw],
      raw.task_id = some t.task_id ∧ raw.objective = some t.objective
    ∧ raw.search_strategy = some t.search_strategy
    ∧ raw.output_format = some t.output_format
    ∧ raw.tool_guidance = some t.tool_guidance
    ∧ raw.boundaries = some t.boundaries :=
  claim_C9_presence_validation
    { synthesis := "syn", needs_more_research := true,
      next_tasks := [c9_empty_raw, c5_invalid_raw] }
    [] 1 3 [] [c9_empty_task] (by decide)

/-- A concrete accumulated source for the citation claim. -/
def c10_source : Source :=
  { url := "https://example.org/r", title := "ref", snippet := "sn", score := none }

/-- C10: the citation step never fails on out-of-range indices: an empty
index list selects the full accumulated source list, every selected
source is one of the accumulated sources, an out-of-range index is
dropped without affecting the rest of the selection, and a single
in-range index `i` selects exactly the source at position `i-1`. -/
theorem claim_C10_citation_in_range (citations_used : List Int)
    (all_sources : List Source) :
    (citations_used = [] → cited_sources citations_used all_sources = all_sources)
  ∧ (∀ s, s ∈ cited_sources citations_used all_sources → s ∈ all_sources)
  ∧ (∀ j tail, ¬(0 < j ∧ j ≤ (all_sources.length : Int)) → tail ≠ [] →
      cited_sources (j :: tail) all_sources = cited_sources tail all_sources)
  ∧ (∀ i : Int, 0 < i → i ≤ (all_sources.length : Int) →
      cited_sources [i] all_sources
        = [all_sources.getD (i - 1).toNat
            { url := "", title := "", snippet := "", score := none }]) := by
  refine ⟨?_, ?_, ?_, ?_⟩
  · intro h
    subst h
    simp [cited_sources]
  · intro s hs
    by_cases hemp : citations_used.isEmpty
    · simpa [cited_sources, hemp] using hs
    · simp only [cited_sources, hemp, if_false, Bool.false_eq_true] at hs
      rcases List.mem_filterMap.mp hs with ⟨i, _hi, hsome⟩
      by_cases hr : 0 < i ∧ i ≤ (all_sources.length : Int)
      · rw [if_pos hr] at hsome
        have hlt : (i - 1).toNat < all_sources.length := by omega
        rw [List.getD_eq_getElem _ _ hlt] at hsome
        rw [← Option.some.inj hsome]
        exact List.getElem_mem hlt
      · rw [if_neg hr] at hsome
        cases hsome
  · intro j tail hj htail
    cases tail with
    | nil => exact absurd rfl htail
    | cons x xs => simp [cited_sources, List.filterMap_cons, hj]
  · intro i h1 h2
    have hr : 0 < i ∧ i ≤ (all_sources.length : Int) := ⟨h1, h2⟩
    simp [cited_sources, List.filterMap_cons, hr]

/-- C10 witness for `claim_C10_citation_in_range`: over a one-source
list, the empty index list selects everything, the out-of-range index 7
is dropped, and the in-range index 1 selects the source. -/
theorem claim_C10_witness :
    (cited_sources [] [c10_source] = [c10_source])
  ∧ (cited_sources [(7 : Int), 1] [c10_source] = cited_sources [(1 : Int)] [c10_source])
  ∧ (cited_sources [(1 : Int)] [c10_source] = [c10_source]) :=
  ⟨(claim_C10_citation_in_range [] [c10_source]).1 rfl,
   (claim_C10_citation_in_range [7, 1] [c10_source]).2.2.1 7 [1] (by decide) (by decide),
   (claim_C10_citation_in_range [1] [c10_source]).2.2.2 1 (by decide) (by decide)⟩

end DeepResearch
